import Mathlib

/-!
Shallow embedding of the `api-ventes` Flask application (`src/app.py`):
a JSON CRUD API over a SQLite table of sales items (`ventes`) plus a
`users` table, with registration, login and a bearer-token middleware.

Modelling conventions:
* JSON / Python scalar values are `PyVal`; Python floats are modelled as
  exact rationals (`ℚ`).  Strings accepted by `float(...)` / `int(...)`
  are modelled by a plain decimal parser (optional sign, digits, optional
  fractional part) — the common core of Python's and SQLite's numeric
  string grammars; exponents, `inf`/`nan`, underscores and surrounding
  whitespace are not modelled.
* SQLite storage is modelled by `SQLiteVal` together with the column
  affinity conversions (`ventes.prix` has REAL affinity, `ventes.quantite`
  INTEGER affinity); the code inserts the raw request values, so the
  affinity conversion is what determines the persisted value.
* `CURRENT_TIMESTAMP` is modelled by a `Nat` clock value passed to each
  operation.
* A request body is `Option B`: `none` models an absent or falsy body
  (`request.get_json()` returning `None`, or a falsy value, both taken by
  `if not data`); `some b` models a truthy JSON object, whose `get` calls
  are the `Option` fields of `B` (`none` = key absent, `some .none` = key
  present with JSON `null`).
* The JWT codec and the password hasher are external collaborators and are
  parameters (`decode`, `hash`, `check`) of the functions that use them.
-/

/-- Python/JSON scalar value as it can appear in a request body. -/
inductive PyVal where
  | none
  | bool (b : Bool)
  | int (n : Int)
  | float (q : ℚ)
  | str (s : String)
deriving DecidableEq, Repr

/-- Value of a digit run, most significant first (`cs` all digits). -/
def digitsToNat (cs : List Char) : Nat :=
  cs.foldl (fun a c => 10 * a + (c.toNat - 48)) 0

/-- Unsigned decimal literal: `digits`, `digits.digits`, `digits.` or
`.digits`, as accepted both by Python's `float` and by SQLite's numeric
conversion (exponents not modelled). -/
def parseUnsignedDec (cs : List Char) : Option ℚ :=
  let ip := cs.takeWhile Char.isDigit
  let rest := cs.dropWhile Char.isDigit
  match rest with
  | [] => if ip.isEmpty then Option.none else some ((digitsToNat ip : Int) : ℚ)
  | '.' :: fp =>
    if fp.all Char.isDigit && !(ip.isEmpty && fp.isEmpty) then
      some (mkRat (digitsToNat ip * 10 ^ fp.length + digitsToNat fp) (10 ^ fp.length))
    else Option.none
  | _ => Option.none

/-- Numeric string as accepted by Python's `float(s)` (decimal core). -/
def parseFloatStr (s : String) : Option ℚ :=
  match s.data with
  | '+' :: cs => parseUnsignedDec cs
  | '-' :: cs => (parseUnsignedDec cs).map Neg.neg
  | cs => parseUnsignedDec cs

/-- Integer string as accepted by Python's `int(s)`: optional sign then
digits only. -/
def parseIntStr (s : String) : Option Int :=
  match s.data with
  | '+' :: cs =>
    if !cs.isEmpty && cs.all Char.isDigit then some ((digitsToNat cs : Int)) else Option.none
  | '-' :: cs =>
    if !cs.isEmpty && cs.all Char.isDigit then some (-(digitsToNat cs : Int)) else Option.none
  | cs =>
    if !cs.isEmpty && cs.all Char.isDigit then some ((digitsToNat cs : Int)) else Option.none

/-- Python `float(v)`: `none` models the `ValueError`/`TypeError` branch. -/
def pyFloat : PyVal → Option ℚ
  | .none => Option.none
  | .bool b => some (if b then 1 else 0)
  | .int n => some ((n : ℚ))
  | .float q => some q
  | .str s => parseFloatStr s

/-- Truncation toward zero, as Python `int()` applied to a float. -/
def ratTrunc (q : ℚ) : Int :=
  if 0 ≤ q.num then ((q.num.toNat / q.den : Nat) : Int)
  else -((q.num.natAbs / q.den : Nat) : Int)

/-- Python `int(v)`: `none` models the `ValueError`/`TypeError` branch. -/
def pyInt : PyVal → Option Int
  | .none => Option.none
  | .bool b => some (if b then 1 else 0)
  | .int n => some n
  | .float q => some (ratTrunc q)
  | .str s => parseIntStr s

/-- Python truthiness of a scalar value. -/
def PyVal.truthy : PyVal → Bool
  | .none => false
  | .bool b => b
  | .int n => n != 0
  | .float q => q != 0
  | .str s => !s.data.isEmpty

/-- Whether the value is a Python `str` (`isinstance(v, str)`). -/
def PyVal.isStr : PyVal → Bool
  | .str _ => true
  | _ => false

/-- Python `len` of a string value (characters), `0` on non-strings
(in the source `len` is only reached on `str` values). -/
def PyVal.pyLen : PyVal → Nat
  | .str s => s.data.length
  | _ => 0

/-- The string payload of a `str` value (only used after an `isStr` guard). -/
def PyVal.asStr : PyVal → String
  | .str s => s
  | _ => ""

def msgDesignation : String :=
  "La désignation doit être une chaîne non vide de maximum 100 caractères."

def msgPrixPositif : String := "Le prix doit être positif."

def msgPrixNombre : String := "Le prix doit être un nombre."

def msgQuantitePositive : String := "La quantité doit être un entier positif."

def msgQuantiteEntier : String := "La quantité doit être un entier."

/-- Designation rule of `validate_vente`:
`if not design or not isinstance(design, str) or len(design) > 100`. -/
def designErrs (design : PyVal) : List String :=
  if !design.truthy || !design.isStr || design.pyLen > 100 then [msgDesignation] else []

/-- Price rule of `validate_vente`: `float(prix)` then sign check, with
the `except` branch producing the not-a-number message. -/
def prixErrs (prix : PyVal) : List String :=
  match pyFloat prix with
  | some q => if q ≤ 0 then [msgPrixPositif] else []
  | Option.none => [msgPrixNombre]

/-- Quantity rule of `validate_vente`: `int(quantite)` then sign check,
with the `except` branch producing the not-an-integer message. -/
def quantiteErrs (quantite : PyVal) : List String :=
  match pyInt quantite with
  | some n => if n ≤ 0 then [msgQuantitePositive] else []
  | Option.none => [msgQuantiteEntier]

/-- `validate_vente(design, prix, quantite)` from `src/app.py`: accumulates
one error message per violated rule, in source order. -/
def validate_vente (design prix quantite : PyVal) : List String :=
  designErrs design ++ prixErrs prix ++ quantiteErrs quantite

/-- Value as stored in a SQLite cell. -/
inductive SQLiteVal where
  | int (n : Int)
  | real (q : ℚ)
  | text (s : String)
  | null
deriving DecidableEq, Repr

/-- SQLite REAL column affinity applied to a bound Python value
(`ventes.prix`): integers and booleans are forced to floating point,
well-formed numeric strings are converted, other text is stored as is. -/
def applyRealAffinity : PyVal → SQLiteVal
  | .int n => .real ((n : ℚ))
  | .bool b => .real (if b then 1 else 0)
  | .float q => .real q
  | .str s =>
    match parseFloatStr s with
    | some q => .real q
    | Option.none => .text s
  | .none => .null

/-- SQLite INTEGER column affinity applied to a bound Python value
(`ventes.quantite`): lossless conversions to INTEGER are performed, a
non-integral float stays REAL, non-numeric text stays TEXT. -/
def applyIntegerAffinity : PyVal → SQLiteVal
  | .int n => .int n
  | .bool b => .int (if b then 1 else 0)
  | .float q => if q.den = 1 then .int q.num else .real q
  | .str s =>
    match parseFloatStr s with
    | some q => if q.den = 1 then .int q.num else .real q
    | Option.none => .text s
  | .none => .null

/-- Stored SQLite value as read back into Python by the `sqlite3` driver. -/
def sqliteToPy : SQLiteVal → PyVal
  | .int n => .int n
  | .real q => .float q
  | .text s => .str s
  | .null => .none

/-- Row of the `users` table. -/
structure User where
  id : Nat
  username : String
  password : String
  role : String
deriving DecidableEq, Repr

/-- Row of the `ventes` table. -/
structure Vente where
  numProduit : Nat
  design : String
  prix : SQLiteVal
  quantite : SQLiteVal
  created_at : Nat
  updated_at : Nat
deriving DecidableEq, Repr

/-- The `ventes` table with its AUTOINCREMENT counter. -/
structure DB where
  ventes : List Vente
  nextId : Nat
deriving DecidableEq, Repr

/-- Freshly initialised `ventes` table (AUTOINCREMENT starts at 1). -/
def DB.empty : DB := ⟨[], 1⟩

/-- Serialized form of a row as built by the GET handlers. -/
structure VenteJson where
  numProduit : Nat
  design : String
  prix : PyVal
  quantite : PyVal
  created_at : Nat
  updated_at : Nat
deriving DecidableEq, Repr

/-- JSON response of a ventes route: status code plus payload shape. -/
inductive Resp where
  | msg (status : Nat) (message : String)
  | msgErrors (status : Nat) (message : String) (errors : List String)
  | vente (status : Nat) (v : VenteJson)
deriving DecidableEq, Repr

/-- HTTP status of a response. -/
def Resp.status : Resp → Nat
  | .msg s _ => s
  | .msgErrors s _ _ => s
  | .vente s _ => s

/-- Request body of the create / update routes: each field is present
(`some`) or absent (`none`), mirroring `data.get(...)`. -/
structure VenteBody where
  design : Option PyVal
  prix : Option PyVal
  quantite : Option PyVal
deriving DecidableEq, Repr

/-- `SELECT * FROM ventes WHERE numProduit = ?` (`one=True`). -/
def findVente (db : DB) (numProduit : Nat) : Option Vente :=
  db.ventes.find? (fun v => v.numProduit == numProduit)

/-- Row serialization shared by the GET handlers. -/
def venteJson (v : Vente) : VenteJson :=
  { numProduit := v.numProduit
    design := v.design
    prix := sqliteToPy v.prix
    quantite := sqliteToPy v.quantite
    created_at := v.created_at
    updated_at := v.updated_at }

/-- `get_one_vente` route handler (GET /api/ventes/<id>). -/
def get_one_vente (db : DB) (num_produit : Nat) : Resp :=
  match findVente db num_produit with
  | Option.none => .msg 404 "Vente non trouvée!"
  | some v => .vente 200 (venteJson v)

/-- `create_vente` route handler (POST /api/ventes).  `now` is the value of
`CURRENT_TIMESTAMP` at the insert.  Note the INSERT binds the raw request
values, so the stored cells are the affinity conversions of the raw
values, not of the coerced ones used by validation. -/
def create_vente (db : DB) (now : Nat) (body : Option VenteBody) : Resp × DB :=
  match body with
  | Option.none => (.msg 400 "Aucune donnée fournie!", db)
  | some data =>
    let design := data.design.getD .none
    let prix := data.prix.getD .none
    let quantite := data.quantite.getD .none
    let errors := validate_vente design prix quantite
    if errors ≠ [] then
      (.msgErrors 400 "Données invalides" errors, db)
    else if (db.ventes.any (fun v => v.design == design.asStr)) then
      (.msg 409 "Un article avec cette désignation existe déjà!", db)
    else
      let v : Vente :=
        { numProduit := db.nextId
          design := design.asStr
          prix := applyRealAffinity prix
          quantite := applyIntegerAffinity quantite
          created_at := now
          updated_at := now }
      (.msg 201 "Vente créée avec succès!", ⟨db.ventes ++ [v], db.nextId + 1⟩)

/-- `update_vente` route handler (PUT /api/ventes/<id>).  Fields absent
from the body fall back to the stored row (`data.get(key, vente[key])`,
with the stored cell read back as a Python value). -/
def update_vente (db : DB) (now : Nat) (num_produit : Nat) (body : Option VenteBody) :
    Resp × DB :=
  match body with
  | Option.none => (.msg 400 "Aucune donnée fournie!", db)
  | some data =>
    match findVente db num_produit with
    | Option.none => (.msg 404 "Vente non trouvée!", db)
    | some vente =>
      let design := data.design.getD (.str vente.design)
      let prix := data.prix.getD (sqliteToPy vente.prix)
      let quantite := data.quantite.getD (sqliteToPy vente.quantite)
      let errors := validate_vente design prix quantite
      if errors ≠ [] then
        (.msgErrors 400 "Données invalides" errors, db)
      else
        let upd : Vente → Vente := fun v =>
          if v.numProduit == num_produit then
            { v with
                design := design.asStr
                prix := applyRealAffinity prix
                quantite := applyIntegerAffinity quantite
                updated_at := now }
          else v
        (.msg 200 "Vente mise à jour avec succès!", ⟨db.ventes.map upd, db.nextId⟩)

/-- `delete_vente` route handler (DELETE /api/ventes/<id>). -/
def delete_vente (db : DB) (num_produit : Nat) : Resp × DB :=
  match findVente db num_produit with
  | Option.none => (.msg 404 "Vente non trouvée!", db)
  | some _ =>
    (.msg 200 "Vente supprimée avec succès!",
      ⟨db.ventes.filter (fun v => !(v.numProduit == num_produit)), db.nextId⟩)

/-- Python `s.split(' ')`: split on every single space, keeping empty
pieces. -/
def splitOnSpace (cs : List Char) (acc : List Char := []) : List (List Char) :=
  match cs with
  | [] => [acc.reverse]
  | ' ' :: rest => acc.reverse :: splitOnSpace rest []
  | c :: rest => splitOnSpace rest (c :: acc)

/-- Python `s.startswith(p)` on character lists. -/
def listStartsWith : List Char → List Char → Bool
  | _, [] => true
  | [], _ :: _ => false
  | c :: cs, d :: ds => c == d && listStartsWith cs ds

/-- Token extraction of `token_required`: `None` unless the `Authorization`
header is present, starts with `"Bearer "` and its piece after the first
space is non-empty (the `if not token` falsy check). -/
def extractBearer (authHeader : Option String) : Option String :=
  match authHeader with
  | Option.none => Option.none
  | some h =>
    if listStartsWith h.data "Bearer ".data then
      let t := (splitOnSpace h.data).getD 1 []
      if t.isEmpty then Option.none else some (String.mk t)
    else Option.none

/-- Outcome of the `token_required` decorator on a request. -/
inductive AuthOutcome where
  | missingToken
  | invalidToken
  | handler (current_user : Option User)
deriving DecidableEq, Repr

/-- `token_required` from `src/app.py`.  `decode` is the JWT collaborator:
`some uid` models `jwt.decode` succeeding with a payload whose
`user_id` key is `uid`; `none` models any exception (bad signature,
expiry, malformed token, missing key).  The user lookup returns `None`
without raising when the id matches no row, and the wrapped handler is
then still called, with `current_user = None`. -/
def token_required (decode : String → Option Nat) (users : List User)
    (authHeader : Option String) : AuthOutcome :=
  match extractBearer authHeader with
  | Option.none => .missingToken
  | some token =>
    match decode token with
    | Option.none => .invalidToken
    | some uid => .handler (users.find? (fun u => u.id == uid))


/-- Body of POST /api/register: `data.get('username')`, `data.get('password')`
(string payloads; the empty string is the falsy case). -/
structure RegisterBody where
  username : Option String
  password : Option String
deriving DecidableEq, Repr

/-- The username check of `register`,
`re.match(r'^[a-zA-Z0-9_]{3,20}$', username)`, with Python semantics: `$`
matches at the end of the string and also just before a newline that ends
the string, so the code accepts a run of 3 to 20 word characters
optionally followed by one final newline. -/
def usernameOk (s : String) : Bool :=
  let core := s.data.takeWhile (fun c => c.isAlphanum || c == '_')
  let rest := s.data.dropWhile (fun c => c.isAlphanum || c == '_')
  3 ≤ core.length && core.length ≤ 20 && (rest.isEmpty || rest == ['\n'])

/-- The spec's plain reading of the username rule: the whole string
matches `^[A-Za-z0-9_]{3,20}$`, with no trailing-newline tolerance.  Kept
as a second, clearly separate definition to compare the spec's words with
the code's `usernameOk`. -/
def usernameSpecOk (s : String) : Bool :=
  3 ≤ s.data.length && s.data.length ≤ 20 &&
    s.data.all (fun c => c.isAlphanum || c == '_')

def msgIncomplet : String := "Données incomplètes!"

def msgUsernameFormat : String :=
  "Le nom d'utilisateur doit contenir entre 3 et 20 caractères alphanumériques ou _"

def msgPasswordCourt : String := "Le mot de passe doit contenir au moins 8 caractères"

/-- `register` from `src/app.py`.  `hash` is the password-hashing
collaborator (`generate_password_hash`); `nextId` the AUTOINCREMENT
counter of `users`. -/
def register (hash : String → String) (users : List User) (nextId : Nat)
    (body : Option RegisterBody) : Resp × List User :=
  match body with
  | Option.none => (.msg 400 msgIncomplet, users)
  | some data =>
    match data.username, data.password with
    | some username, some password =>
      if username.data.isEmpty || password.data.isEmpty then
        (.msg 400 msgIncomplet, users)
      else if !usernameOk username then
        (.msg 400 msgUsernameFormat, users)
      else if password.data.length < 8 then
        (.msg 400 msgPasswordCourt, users)
      else if users.any (fun u => u.username == username) then
        (.msg 409 "Utilisateur déjà existant!", users)
      else
        (.msg 201 "Utilisateur créé avec succès!",
          users ++ [⟨nextId, username, hash password, "user"⟩])
    | _, _ => (.msg 400 msgIncomplet, users)

/-- Response of POST /api/login. -/
inductive LoginResp where
  | err (status : Nat) (message : String)
  | token (user_id : Nat) (exp : Nat)
deriving DecidableEq, Repr

/-- Credential extraction of `login`: HTTP basic auth if present with
truthy username and password, otherwise the JSON body's `username` /
`password` if both truthy, otherwise nothing. -/
def loginCreds (auth : Option (String × String))
    (body : Option (Option String × Option String)) : Option (String × String) :=
  let fromBody : Option (String × String) :=
    match body with
    | Option.none => Option.none
    | some (u?, p?) =>
      match u?, p? with
      | some u, some p =>
        if u.data.isEmpty || p.data.isEmpty then Option.none else some (u, p)
      | _, _ => Option.none
  match auth with
  | some (u, p) => if u.data.isEmpty || p.data.isEmpty then fromBody else some (u, p)
  | Option.none => fromBody

/-- `SELECT * FROM users WHERE username = ?` (`one=True`). -/
def findUser (users : List User) (username : String) : Option User :=
  users.find? (fun u => u.username == username)

/-- `login` from `src/app.py`.  `check` is `check_password_hash(stored,
supplied)`; `now` the issue time, the token payload carries `user_id` and
`exp = now + 24h` in seconds. -/
def login (check : String → String → Bool) (users : List User) (now : Nat)
    (auth : Option (String × String))
    (body : Option (Option String × Option String)) : LoginResp :=
  match loginCreds auth body with
  | Option.none => .err 401 "Authentification requise!"
  | some (username, password) =>
    match findUser users username with
    | Option.none => .err 401 "Identifiants incorrects!"
    | some user =>
      if check user.password password then
        .token user.id (now + 86400)
      else
        .err 401 "Identifiants incorrects!"

/-- Acceptable designation per the claim: a non-empty string of at most
100 characters. -/
def designOk (d : PyVal) : Prop :=
  ∃ s, d = PyVal.str s ∧ s.data ≠ [] ∧ s.data.length ≤ 100

/-- Acceptable price per the claim: coercible by `float(...)` with
positive coerced value. -/
def prixOk (p : PyVal) : Prop :=
  ∃ q, pyFloat p = some q ∧ 0 < q

/-- Acceptable quantity per the claim: coercible by `int(...)` with
positive coerced value. -/
def quantiteOk (v : PyVal) : Prop :=
  ∃ n, pyInt v = some n ∧ 0 < n

lemma designCond_false_iff (d : PyVal) :
    ((!d.truthy || !d.isStr || decide (d.pyLen > 100)) = false) ↔ designOk d := by
  cases d <;>
    simp [PyVal.truthy, PyVal.isStr, PyVal.pyLen, designOk, Nat.not_lt, List.isEmpty_iff]


lemma designErrs_nil_iff (d : PyVal) : designErrs d = [] ↔ designOk d := by
  rw [← designCond_false_iff]
  unfold designErrs
  cases (!d.truthy || !d.isStr || decide (d.pyLen > 100)) <;> simp

lemma mem_designErrs_iff (d : PyVal) : msgDesignation ∈ designErrs d ↔ ¬ designOk d := by
  rw [← designCond_false_iff]
  unfold designErrs
  cases (!d.truthy || !d.isStr || decide (d.pyLen > 100)) <;> simp

lemma designErrs_subset (d : PyVal) (m : String) (h : m ∈ designErrs d) :
    m = msgDesignation := by
  unfold designErrs at h
  cases (!d.truthy || !d.isStr || decide (d.pyLen > 100)) <;> simp_all

lemma prixErrs_nil_iff (p : PyVal) : prixErrs p = [] ↔ prixOk p := by
  unfold prixErrs prixOk
  cases hp : pyFloat p with
  | none => simp
  | some q =>
    by_cases h : q ≤ 0
    · simp [h, not_lt.mpr h]
    · simp [h, lt_of_not_le h]

lemma mem_prixErrs_iff (p : PyVal) :
    (msgPrixNombre ∈ prixErrs p ∨ msgPrixPositif ∈ prixErrs p) ↔ ¬ prixOk p := by
  unfold prixErrs prixOk
  cases hp : pyFloat p with
  | none => simp
  | some q =>
    by_cases h : q ≤ 0
    · simp [h, not_lt.mpr h, (by decide : msgPrixNombre ≠ msgPrixPositif)]
    · simp [h, lt_of_not_le h]

lemma prixErrs_subset (p : PyVal) (m : String) (h : m ∈ prixErrs p) :
    m = msgPrixNombre ∨ m = msgPrixPositif := by
  unfold prixErrs at h
  cases hp : pyFloat p with
  | none => simp_all
  | some q => by_cases hq : q ≤ 0 <;> simp_all

lemma quantiteErrs_nil_iff (v : PyVal) : quantiteErrs v = [] ↔ quantiteOk v := by
  unfold quantiteErrs quantiteOk
  cases hq : pyInt v with
  | none => simp
  | some n =>
    by_cases h : n ≤ 0
    · simp [h, not_lt.mpr h]
    · simp [h, lt_of_not_le h]

lemma mem_quantiteErrs_iff (v : PyVal) :
    (msgQuantiteEntier ∈ quantiteErrs v ∨ msgQuantitePositive ∈ quantiteErrs v) ↔
      ¬ quantiteOk v := by
  unfold quantiteErrs quantiteOk
  cases hq : pyInt v with
  | none => simp
  | some n =>
    by_cases h : n ≤ 0
    · simp [h, not_lt.mpr h, (by decide : msgQuantiteEntier ≠ msgQuantitePositive)]
    · simp [h, lt_of_not_le h]

lemma quantiteErrs_subset (v : PyVal) (m : String) (h : m ∈ quantiteErrs v) :
    m = msgQuantiteEntier ∨ m = msgQuantitePositive := by
  unfold quantiteErrs at h
  cases hq : pyInt v with
  | none => simp_all
  | some n => by_cases hn : n ≤ 0 <;> simp_all

/-- C3: `validate_vente` returns `[]` exactly on acceptable input
(non-empty string designation of at most 100 characters, price coercible
to a positive number, quantity coercible to a positive integer); it
accumulates one message per violated rule without short-circuiting — the
designation / price / quantity messages each appear exactly when the
corresponding rule is violated, independently of the other fields — and,
being a pure function of its arguments, it has no side effects. -/
theorem validate_vente_correct (design prix quantite : PyVal) :
    (validate_vente design prix quantite = [] ↔
      designOk design ∧ prixOk prix ∧ quantiteOk quantite) ∧
    (msgDesignation ∈ validate_vente design prix quantite ↔ ¬ designOk design) ∧
    ((msgPrixNombre ∈ validate_vente design prix quantite ∨
      msgPrixPositif ∈ validate_vente design prix quantite) ↔ ¬ prixOk prix) ∧
    ((msgQuantiteEntier ∈ validate_vente design prix quantite ∨
      msgQuantitePositive ∈ validate_vente design prix quantite) ↔
      ¬ quantiteOk quantite) := by
  refine ⟨?_, ?_, ?_, ?_⟩
  · simp [validate_vente, designErrs_nil_iff, prixErrs_nil_iff, quantiteErrs_nil_iff]
  · simp only [validate_vente, List.mem_append]
    rw [← mem_designErrs_iff]
    constructor
    · rintro ((h | h) | h)
      · exact h
      · rcases prixErrs_subset _ _ h with h' | h' <;> exact absurd h' (by decide)
      · rcases quantiteErrs_subset _ _ h with h' | h' <;> exact absurd h' (by decide)
    · exact fun h => Or.inl (Or.inl h)
  · simp only [validate_vente, List.mem_append]
    rw [← mem_prixErrs_iff]
    constructor
    · rintro (((h | h) | h) | ((h | h) | h))
      · exact absurd (designErrs_subset _ _ h) (by decide)
      · exact Or.inl h
      · rcases quantiteErrs_subset _ _ h with h' | h' <;> exact absurd h' (by decide)
      · exact absurd (designErrs_subset _ _ h) (by decide)
      · exact Or.inr h
      · rcases quantiteErrs_subset _ _ h with h' | h' <;> exact absurd h' (by decide)
    · rintro (h | h)
      · exact Or.inl (Or.inl (Or.inr h))
      · exact Or.inr (Or.inl (Or.inr h))
  · simp only [validate_vente, List.mem_append]
    rw [← mem_quantiteErrs_iff]
    constructor
    · rintro (((h | h) | h) | ((h | h) | h))
      · exact absurd (designErrs_subset _ _ h) (by decide)
      · rcases prixErrs_subset _ _ h with h' | h' <;> exact absurd h' (by decide)
      · exact Or.inl h
      · exact absurd (designErrs_subset _ _ h) (by decide)
      · rcases prixErrs_subset _ _ h with h' | h' <;> exact absurd h' (by decide)
      · exact Or.inr h
    · rintro (h | h)
      · exact Or.inl (Or.inr h)
      · exact Or.inr (Or.inr h)

/-- C1 (amended): missing or non-`Bearer` (or empty) token → 401 "Token
manquant!"; present token that fails to decode (invalid, expired,
malformed, or payload without `user_id`) → 401 "Token invalide!"; but when
the token decodes, the wrapped handler is always invoked with the result
of the user lookup — the user record when the embedded id resolves, and
`None` (not a 401) when it does not. -/
theorem token_required_spec (decode : String → Option Nat) (users : List User)
    (h : Option String) :
    (h = Option.none → token_required decode users h = .missingToken) ∧
    (∀ s, h = some s → listStartsWith s.data "Bearer ".data = false →
      token_required decode users h = .missingToken) ∧
    (extractBearer h = Option.none → token_required decode users h = .missingToken) ∧
    (∀ t, extractBearer h = some t → decode t = Option.none →
      token_required decode users h = .invalidToken) ∧
    (∀ t uid, extractBearer h = some t → decode t = some uid →
      token_required decode users h =
        .handler (users.find? (fun u => u.id == uid))) ∧
    (∀ t uid u, extractBearer h = some t → decode t = some uid →
      users.find? (fun w => w.id == uid) = some u →
      token_required decode users h = .handler (some u)) := by
  refine ⟨?_, ?_, ?_, ?_, ?_, ?_⟩
  · intro hh; simp [token_required, extractBearer, hh]
  · intro s hh hb; simp [token_required, extractBearer, hh, hb]
  · intro he; simp [token_required, he]
  · intro t he hd; simp [token_required, he, hd]
  · intro t uid he hd; simp [token_required, he, hd]
  · intro t uid u he hd hu; simp [token_required, he, hd, hu]

/-- C1, counterexample to the claim as stated: a token that decodes to
user id 1 when the users table is empty does not produce the 401
invalid-token response claimed; the wrapped handler is invoked, with
`current_user = None` as the acting identity. -/
theorem token_required_unresolved_user_cex :
    token_required (fun _ => some 1) [] (some "Bearer abc") =
      .handler Option.none := by decide

/-- Witness instantiating `token_required_spec`: a resolvable token
reaches the handler with the resolved user. -/
theorem token_required_spec_witness :
    token_required (fun _ => some 2) [⟨2, "bob", "H", "user"⟩] (some "Bearer t") =
      .handler (some ⟨2, "bob", "H", "user"⟩) :=
  (token_required_spec (fun _ => some 2) [⟨2, "bob", "H", "user"⟩]
    (some "Bearer t")).2.2.2.2.2 "t" 2 ⟨2, "bob", "H", "user"⟩
    (by decide) (by decide) (by decide)

lemma find?_filter_ne (l : List Vente) (id : Nat) :
    (l.filter (fun v => !(v.numProduit == id))).find? (fun v => v.numProduit == id) =
      Option.none := by
  rw [List.find?_eq_none]
  intro x hx
  have := List.of_mem_filter hx
  simpa using this

/-- C9: deleting an id with no matching row answers 404 and leaves the
database unchanged; deleting an existing id removes exactly the rows with
that id (others survive) and answers 200; and a second delete of the same
id — whatever the first returned — answers 404. -/
theorem delete_vente_correct (db : DB) (id : Nat) :
    (findVente db id = Option.none →
      delete_vente db id = (.msg 404 "Vente non trouvée!", db)) ∧
    (∀ v, findVente db id = some v →
      delete_vente db id =
        (.msg 200 "Vente supprimée avec succès!",
          ⟨db.ventes.filter (fun w => !(w.numProduit == id)), db.nextId⟩) ∧
      (∀ w ∈ (delete_vente db id).2.ventes, w.numProduit ≠ id) ∧
      (∀ w ∈ db.ventes, w.numProduit ≠ id → w ∈ (delete_vente db id).2.ventes)) ∧
    ((delete_vente (delete_vente db id).2 id).1 = .msg 404 "Vente non trouvée!") := by
  refine ⟨?_, ?_, ?_⟩
  · intro hn; simp [delete_vente, hn]
  · intro v hv
    refine ⟨by simp [delete_vente, hv], ?_, ?_⟩
    · intro w hw
      simp only [delete_vente, hv] at hw
      have := List.of_mem_filter hw
      simpa using this
    · intro w hw hne
      simp only [delete_vente, hv]
      exact List.mem_filter.mpr ⟨hw, by simpa using hne⟩
  · cases hv : findVente db id with
    | none => simp [delete_vente, hv]
    | some v =>
      have h2 : findVente ⟨db.ventes.filter (fun w => !(w.numProduit == id)), db.nextId⟩ id =
          Option.none := by
        simp [findVente, find?_filter_ne]
      simp [delete_vente, hv, h2]

/-- Witness instantiating `delete_vente_correct`: deleting id 1 from a
one-row table removes the row, and both halves of the double-delete
corollary evaluate. -/
theorem delete_vente_correct_witness :
    delete_vente ⟨[⟨1, "A", .real 2, .int 3, 0, 0⟩], 2⟩ 1 =
      (.msg 200 "Vente supprimée avec succès!", ⟨[], 2⟩) ∧
    delete_vente DB.empty 5 = (.msg 404 "Vente non trouvée!", DB.empty) := by
  constructor
  · exact ((delete_vente_correct ⟨[⟨1, "A", .real 2, .int 3, 0, 0⟩], 2⟩ 1).2.1
      ⟨1, "A", .real 2, .int 3, 0, 0⟩ (by decide)).1
  · exact (delete_vente_correct DB.empty 5).1 (by decide)

/-- C10: in `update_vente` the falsy-body check precedes the existence
lookup — a PUT with no (or falsy) body answers 400 "Aucune donnée
fournie!" whatever the id, even an id with no row; the 404 not-found
response can only arise from a request that carried a truthy body. -/
theorem update_vente_body_check_first (db : DB) (now id : Nat) :
    (update_vente db now id Option.none = (.msg 400 "Aucune donnée fournie!", db)) ∧
    (∀ body : Option VenteBody,
      (update_vente db now id body).1 = .msg 404 "Vente non trouvée!" →
      body ≠ Option.none) := by
  refine ⟨rfl, ?_⟩
  intro body hb
  cases body with
  | none => simp [update_vente] at hb
  | some data => simp

/-- Witness instantiating `update_vente_body_check_first` on the empty
database: the body check fires before the (failing) lookup, and a 404
obtained with a real body certifies the body was not falsy. -/
theorem update_vente_body_check_first_witness :
    update_vente DB.empty 0 7 Option.none = (.msg 400 "Aucune donnée fournie!", DB.empty) ∧
    (some (⟨Option.none, Option.none, Option.none⟩ : VenteBody)) ≠
      (Option.none : Option VenteBody) := by
  constructor
  · exact (update_vente_body_check_first DB.empty 0 7).1
  · exact (update_vente_body_check_first DB.empty 0 7).2
      (some ⟨Option.none, Option.none, Option.none⟩) (by decide)

/-- C4: for any database state and any two login requests whose extracted
credentials name, respectively, a username with no user row and an
existing user whose password fails the hash check, the two responses are
the same 401 "Identifiants incorrects!" — the response does not
distinguish unknown-user from wrong-password. -/
theorem login_no_user_enumeration (check : String → String → Bool) (users : List User)
    (now1 now2 : Nat) (a1 a2 : Option (String × String))
    (b1 b2 : Option (Option String × Option String)) (u1 p1 u2 p2 : String)
    (hc1 : loginCreds a1 b1 = some (u1, p1))
    (hc2 : loginCreds a2 b2 = some (u2, p2))
    (h1 : findUser users u1 = Option.none)
    (h2 : ∃ u, findUser users u2 = some u ∧ check u.password p2 = false) :
    login check users now1 a1 b1 = login check users now2 a2 b2 ∧
    login check users now1 a1 b1 = .err 401 "Identifiants incorrects!" := by
  obtain ⟨u, hu, hcheck⟩ := h2
  constructor <;> simp [login, hc1, hc2, h1, hu, hcheck]

/-- Witness instantiating `login_no_user_enumeration`: unknown user
"alice" and existing user "bob" with a failing password check get the
identical 401 response. -/
theorem login_no_user_enumeration_witness :
    login (fun _ _ => false) [⟨1, "bob", "H", "user"⟩] 0 Option.none
        (some (some "alice", some "pw")) =
      login (fun _ _ => false) [⟨1, "bob", "H", "user"⟩] 0 Option.none
        (some (some "bob", some "pw")) ∧
    login (fun _ _ => false) [⟨1, "bob", "H", "user"⟩] 0 Option.none
        (some (some "alice", some "pw")) = .err 401 "Identifiants incorrects!" :=
  login_no_user_enumeration (fun _ _ => false) [⟨1, "bob", "H", "user"⟩] 0 0
    Option.none Option.none (some (some "alice", some "pw"))
    (some (some "bob", some "pw")) "alice" "pw" "bob" "pw"
    (by decide) (by decide) (by decide)
    ⟨⟨1, "bob", "H", "user"⟩, by decide, by decide⟩

lemma usernameOk_ne_empty (u : String) (h : usernameOk u = true) : u.data.isEmpty = false := by
  unfold usernameOk at h
  cases hd : u.data with
  | nil => rw [hd] at h; simp [List.takeWhile] at h
  | cons c cs => simp [List.isEmpty]

lemma all_takeWhile_self {α : Type} (p : α → Bool) (l : List α) :
    (l.takeWhile p).all p = true := by
  induction l with
  | nil => rfl
  | cons a t ih => by_cases hp : p a = true <;> simp [List.takeWhile_cons, hp, ih]

lemma takeWhile_dropWhile_of_all {α : Type} (p : α → Bool) (l : List α)
    (h : l.all p = true) : l.takeWhile p = l ∧ l.dropWhile p = [] := by
  induction l with
  | nil => exact ⟨rfl, rfl⟩
  | cons a t ih =>
    simp only [List.all_cons, Bool.and_eq_true] at h
    have ht := ih h.2
    simp [List.takeWhile_cons, List.dropWhile_cons, h.1, ht.1, ht.2]

lemma takeWhile_dropWhile_append {α : Type} (p : α → Bool) (w rest : List α)
    (hw : w.all p = true) :
    (w ++ rest).takeWhile p = w ++ rest.takeWhile p ∧
    (w ++ rest).dropWhile p = rest.dropWhile p := by
  induction w with
  | nil => exact ⟨rfl, rfl⟩
  | cons a t ih =>
    simp only [List.all_cons, Bool.and_eq_true] at hw
    have ht := ih hw.2
    simp [List.takeWhile_cons, List.dropWhile_cons, hw.1, ht.1, ht.2]

lemma usernameOk_iff_spec (u : String) :
    usernameOk u = true ↔
      (usernameSpecOk u = true ∨
        ∃ w : List Char, u.data = w ++ ['\n'] ∧ usernameSpecOk (String.mk w) = true) := by
  have hsplit : u.data.takeWhile (fun c => c.isAlphanum || c == '_') ++
      u.data.dropWhile (fun c => c.isAlphanum || c == '_') = u.data :=
    List.takeWhile_append_dropWhile _ _
  have hall : (u.data.takeWhile (fun c => c.isAlphanum || c == '_')).all
      (fun c => c.isAlphanum || c == '_') = true := all_takeWhile_self _ _
  have hnl : (fun c : Char => c.isAlphanum || c == '_') '\n' = false := by decide
  constructor
  · intro h
    unfold usernameOk at h
    simp only [Bool.and_eq_true, Bool.or_eq_true, decide_eq_true_eq,
      List.isEmpty_iff, beq_iff_eq] at h
    obtain ⟨⟨h3, h20⟩, hrest | hrest⟩ := h
    · left
      have hud : u.data = u.data.takeWhile (fun c => c.isAlphanum || c == '_') := by
        conv_lhs => rw [← hsplit]
        rw [hrest, List.append_nil]
      unfold usernameSpecOk
      simp only [Bool.and_eq_true, decide_eq_true_eq]
      rw [hud]
      exact ⟨⟨h3, h20⟩, hall⟩
    · right
      have hud : u.data = u.data.takeWhile (fun c => c.isAlphanum || c == '_') ++ ['\n'] := by
        conv_lhs => rw [← hsplit]
        rw [hrest]
      refine ⟨u.data.takeWhile (fun c => c.isAlphanum || c == '_'), hud, ?_⟩
      unfold usernameSpecOk
      simp only [Bool.and_eq_true, decide_eq_true_eq]
      exact ⟨⟨h3, h20⟩, hall⟩
  · intro h
    unfold usernameOk
    simp only [Bool.and_eq_true, Bool.or_eq_true, decide_eq_true_eq,
      List.isEmpty_iff, beq_iff_eq]
    cases h with
    | inl h =>
      unfold usernameSpecOk at h
      simp only [Bool.and_eq_true, decide_eq_true_eq] at h
      obtain ⟨⟨h3, h20⟩, hw⟩ := h
      have ht := takeWhile_dropWhile_of_all (fun c : Char => c.isAlphanum || c == '_')
        u.data hw
      rw [ht.1, ht.2]
      exact ⟨⟨h3, h20⟩, Or.inl rfl⟩
    | inr h =>
      obtain ⟨w, hu, hw⟩ := h
      unfold usernameSpecOk at hw
      simp only [Bool.and_eq_true, decide_eq_true_eq] at hw
      obtain ⟨⟨h3, h20⟩, hwall⟩ := hw
      have ht := takeWhile_dropWhile_append (fun c : Char => c.isAlphanum || c == '_')
        w ['\n'] hwall
      rw [hu, ht.1, ht.2]
      simp only [List.takeWhile_cons, List.dropWhile_cons, hnl, Bool.false_eq_true,
        if_false, List.append_nil, List.takeWhile_nil, List.dropWhile_nil]
      exact ⟨⟨h3, h20⟩, Or.inr trivial⟩

/-- C5 (amended): registration answers 400 "Données incomplètes!" on a
missing/falsy body, username or password; 400 on a username rejected by
Python's `re.match(r'^[a-zA-Z0-9_]{3,20}$')` — which accepts exactly the
strings matching the plain regex `^[A-Za-z0-9_]{3,20}$` plus those same
strings followed by one trailing newline (last clause), so a username
like "abc\n" that the plain regex rejects is accepted, 201, and inserted
(see the counterexample); 400 on a password shorter than 8 characters;
409 on an existing username with the users table unchanged; otherwise a
row with the hashed password (the hasher's output, not the plaintext) and
role "user" is inserted and the response is 201 — the response carries no
token (`Resp` has no token field). -/
theorem register_correct (hash : String → String) (users : List User) (nextId : Nat) :
    (register hash users nextId Option.none = (.msg 400 msgIncomplet, users)) ∧
    (∀ body : RegisterBody,
      (body.username = Option.none ∨ body.username = some "" ∨
        body.password = Option.none ∨ body.password = some "") →
      register hash users nextId (some body) = (.msg 400 msgIncomplet, users)) ∧
    (∀ u p : String, u ≠ "" → p ≠ "" → usernameOk u = false →
      register hash users nextId (some ⟨some u, some p⟩) =
        (.msg 400 msgUsernameFormat, users)) ∧
    (∀ u p : String, usernameOk u = true → p ≠ "" → p.length < 8 →
      register hash users nextId (some ⟨some u, some p⟩) =
        (.msg 400 msgPasswordCourt, users)) ∧
    (∀ u p : String, usernameOk u = true → 8 ≤ p.length →
      (∃ w ∈ users, w.username = u) →
      register hash users nextId (some ⟨some u, some p⟩) =
        (.msg 409 "Utilisateur déjà existant!", users)) ∧
    (∀ u p : String, usernameOk u = true → 8 ≤ p.length →
      (∀ w ∈ users, w.username ≠ u) →
      register hash users nextId (some ⟨some u, some p⟩) =
        (.msg 201 "Utilisateur créé avec succès!",
          users ++ [⟨nextId, u, hash p, "user"⟩])) ∧
    (∀ u : String, usernameOk u = true ↔
      (usernameSpecOk u = true ∨
        ∃ w : List Char, u.data = w ++ ['\n'] ∧ usernameSpecOk (String.mk w) = true)) := by
  refine ⟨rfl, ?_, ?_, ?_, ?_, ?_, fun u => usernameOk_iff_spec u⟩
  · rintro ⟨u?, p?⟩ (h | h | h | h) <;> simp_all [register] <;> cases u? <;> cases p? <;>
      simp_all [register]
  · intro u p hu hp hbad
    have hu' : u.data.isEmpty = false := by
      cases hd : u.data with
      | nil => exact absurd (String.ext hd) hu
      | cons c cs => simp [List.isEmpty]
    have hp' : p.data.isEmpty = false := by
      cases hd : p.data with
      | nil => exact absurd (String.ext hd) hp
      | cons c cs => simp [List.isEmpty]
    simp [register, hu', hp', hbad]
  · intro u p hok hp hlen
    have hp' : p.data.isEmpty = false := by
      cases hd : p.data with
      | nil => exact absurd (String.ext hd) hp
      | cons c cs => simp [List.isEmpty]
    simp [register, usernameOk_ne_empty u hok, hp', hok, hlen]
  · intro u p hok hlen hex
    have hp' : p.data.isEmpty = false := by
      cases hd : p.data with
      | nil =>
        have he : p = "" := String.ext hd
        subst he
        exact absurd hlen (by decide)
      | cons c cs => simp [List.isEmpty]
    have hany : users.any (fun w => w.username == u) = true := by
      obtain ⟨w, hw, hwu⟩ := hex
      exact List.any_eq_true.mpr ⟨w, hw, by simp [hwu]⟩
    simp [register, usernameOk_ne_empty u hok, hp', hok, Nat.not_lt.mpr hlen, hany]
  · intro u p hok hlen hnone
    have hp' : p.data.isEmpty = false := by
      cases hd : p.data with
      | nil =>
        have he : p = "" := String.ext hd
        subst he
        exact absurd hlen (by decide)
      | cons c cs => simp [List.isEmpty]
    have hany : users.any (fun w => w.username == u) = false := by
      rw [List.any_eq_false]
      intro w hw
      simpa using hnone w hw
    simp [register, usernameOk_ne_empty u hok, hp', hok, Nat.not_lt.mpr hlen, hany]

/-- Witness instantiating `register_correct`: registering "alice" with an
8-character password on an empty table inserts the hashed row and answers
201; re-registering "alice" answers 409 leaving the table unchanged. -/
theorem register_correct_witness :
    register (fun s => String.mk s.data.reverse) [] 1
        (some ⟨some "alice", some "longpass"⟩) =
      (.msg 201 "Utilisateur créé avec succès!", [⟨1, "alice", "ssapgnol", "user"⟩]) ∧
    register (fun s => String.mk s.data.reverse) [⟨1, "alice", "ssapgnol", "user"⟩] 2
        (some ⟨some "alice", some "longpass"⟩) =
      (.msg 409 "Utilisateur déjà existant!", [⟨1, "alice", "ssapgnol", "user"⟩]) := by
  constructor
  · exact (register_correct (fun s => String.mk s.data.reverse) [] 1).2.2.2.2.2.1
      "alice" "longpass" (by decide) (by decide) (by intro w hw; simp at hw)
  · exact (register_correct (fun s => String.mk s.data.reverse)
      [⟨1, "alice", "ssapgnol", "user"⟩] 2).2.2.2.2.1 "alice" "longpass"
      (by decide) (by decide) ⟨⟨1, "alice", "ssapgnol", "user"⟩, by decide, by decide⟩

/-- C5, counterexample to the claim as stated: the username "abc\n"
(realizable as the JSON string "abc\\n") does not match the plain regex
`^[A-Za-z0-9_]{3,20}$` — `usernameSpecOk` is false — yet Python's
`re.match` accepts it because `$` also matches before the trailing
newline, so registration answers 201 and inserts the row instead of the
claimed 400. -/
theorem register_newline_username_cex :
    register (fun s => String.mk s.data.reverse) [] 1
        (some ⟨some "abc\n", some "longpassword"⟩) =
      (.msg 201 "Utilisateur créé avec succès!",
        [⟨1, "abc\n", "drowssapgnol", "user"⟩]) ∧
    usernameSpecOk "abc\n" = false := by
  constructor <;> decide

/-- C7: designation uniqueness is enforced at create but not at update — a
create whose (validated) designation equals that of a stored item answers
409 and leaves the database unchanged, while `update_vente` can never
answer 409, whatever the request: its only statuses are 400, 404 and 200,
so an update whose merged designation collides with a different row
proceeds to overwrite without a conflict check. -/
theorem create_conflict_update_never_409 (db : DB) (now : Nat) :
    (∀ body : VenteBody,
      validate_vente (body.design.getD .none) (body.prix.getD .none)
        (body.quantite.getD .none) = [] →
      (∃ v ∈ db.ventes, v.design = (body.design.getD .none).asStr) →
      create_vente db now (some body) =
        (.msg 409 "Un article avec cette désignation existe déjà!", db)) ∧
    (∀ id : Nat, ∀ body : Option VenteBody,
      ((update_vente db now id body).1).status ≠ 409) := by
  constructor
  · intro body hval hdup
    have hany : (db.ventes.any fun v => v.design == (body.design.getD .none).asStr) = true := by
      obtain ⟨v, hv, hvd⟩ := hdup
      exact List.any_eq_true.mpr ⟨v, hv, by simp [hvd]⟩
    simp [create_vente, hval, hany]
  · intro id body
    cases body with
    | none => simp [update_vente, Resp.status]
    | some data =>
      cases hf : findVente db id with
      | none => simp [update_vente, hf, Resp.status]
      | some v =>
        by_cases hval : validate_vente (data.design.getD (.str v.design))
            (data.prix.getD (sqliteToPy v.prix))
            (data.quantite.getD (sqliteToPy v.quantite)) = []
        · simp [update_vente, hf, hval, Resp.status]
        · simp [update_vente, hf, hval, Resp.status]

/-- Witness instantiating `create_conflict_update_never_409`: re-creating
designation "A" against a table already holding it answers 409 without
change, and a concrete update of that row is not a 409. -/
theorem create_conflict_update_never_409_witness :
    create_vente ⟨[⟨1, "A", .real 2, .int 3, 0, 0⟩], 2⟩ 1
        (some ⟨some (.str "A"), some (.float 2), some (.int 3)⟩) =
      (.msg 409 "Un article avec cette désignation existe déjà!",
        ⟨[⟨1, "A", .real 2, .int 3, 0, 0⟩], 2⟩) ∧
    ((update_vente ⟨[⟨1, "A", .real 2, .int 3, 0, 0⟩], 2⟩ 1 1
        (some ⟨some (.str "A"), some (.float 2), some (.int 3)⟩)).1).status ≠ 409 := by
  constructor
  · exact (create_conflict_update_never_409 ⟨[⟨1, "A", .real 2, .int 3, 0, 0⟩], 2⟩ 1).1
      ⟨some (.str "A"), some (.float 2), some (.int 3)⟩ (by decide)
      ⟨⟨1, "A", .real 2, .int 3, 0, 0⟩, by decide, by decide⟩
  · exact (create_conflict_update_never_409 ⟨[⟨1, "A", .real 2, .int 3, 0, 0⟩], 2⟩ 1).2 1
      (some ⟨some (.str "A"), some (.float 2), some (.int 3)⟩)

lemma find?_sat {α : Type} (p : α → Bool) (l : List α) (a : α)
    (h : l.find? p = some a) : p a = true := by
  induction l with
  | nil => simp [List.find?] at h
  | cons x t ih =>
    by_cases hx : p x = true
    · rw [List.find?_cons_of_pos _ hx] at h
      exact (Option.some.inj h) ▸ hx
    · rw [List.find?_cons_of_neg _ hx] at h
      exact ih h

lemma find?_map_update (l : List Vente) (id : Nat) (g : Vente → Vente)
    (hg : ∀ w, (g w).numProduit = w.numProduit) :
    (l.map (fun w => if w.numProduit == id then g w else w)).find?
        (fun w => w.numProduit == id) =
      (l.find? (fun w => w.numProduit == id)).map
        (fun w => if w.numProduit == id then g w else w) := by
  rw [List.find?_map]
  have hp : ((fun w => w.numProduit == id) ∘
      fun w => if w.numProduit == id then g w else w) =
      (fun w : Vente => w.numProduit == id) := by
    funext w
    by_cases h : (w.numProduit == id) = true <;> simp [Function.comp, h, hg]
  rw [hp]

/-- C6 (amended): a successful partial update answers 200, keeps the
AUTOINCREMENT counter and every other row, and rewrites the target row to
carry the merged design/prix/quantite, the original `created_at`, and
`updated_at := now`; a field omitted from the body keeps its stored value
(for `prix`/`quantite` whenever the stored cell is stable under its
column affinity, as every cell written by these routes is), and
`updated_at` ends strictly later than `created_at` exactly when the
update's timestamp is strictly later than the row's creation timestamp —
an update in the same clock second leaves them equal (see the
counterexample), so the claim's unconditional "strictly later" does not
hold. -/
theorem update_vente_frame (db : DB) (now id : Nat) (data : VenteBody) (v : Vente)
    (hfind : findVente db id = some v)
    (hval : validate_vente (data.design.getD (.str v.design))
      (data.prix.getD (sqliteToPy v.prix))
      (data.quantite.getD (sqliteToPy v.quantite)) = []) :
    (update_vente db now id (some data)).1 = .msg 200 "Vente mise à jour avec succès!" ∧
    (update_vente db now id (some data)).2.nextId = db.nextId ∧
    (∀ w ∈ db.ventes, w.numProduit ≠ id →
      w ∈ (update_vente db now id (some data)).2.ventes) ∧
    findVente (update_vente db now id (some data)).2 id = some
      { numProduit := v.numProduit
        design := (data.design.getD (.str v.design)).asStr
        prix := applyRealAffinity (data.prix.getD (sqliteToPy v.prix))
        quantite := applyIntegerAffinity (data.quantite.getD (sqliteToPy v.quantite))
        created_at := v.created_at
        updated_at := now } ∧
    (∀ w, findVente (update_vente db now id (some data)).2 id = some w →
      (data.design = Option.none → w.design = v.design) ∧
      (data.prix = Option.none → applyRealAffinity (sqliteToPy v.prix) = v.prix →
        w.prix = v.prix) ∧
      (data.quantite = Option.none →
        applyIntegerAffinity (sqliteToPy v.quantite) = v.quantite →
        w.quantite = v.quantite) ∧
      w.created_at = v.created_at ∧ w.updated_at = now ∧
      (v.created_at < now → w.created_at < w.updated_at)) := by
  have hfind' : db.ventes.find? (fun w => w.numProduit == id) = some v := hfind
  have hpv : (v.numProduit == id) = true :=
    find?_sat (fun w => w.numProduit == id) db.ventes v hfind'
  have hres : update_vente db now id (some data) =
      (.msg 200 "Vente mise à jour avec succès!",
        ⟨db.ventes.map (fun w =>
          if w.numProduit == id then
            { w with
                design := (data.design.getD (.str v.design)).asStr
                prix := applyRealAffinity (data.prix.getD (sqliteToPy v.prix))
                quantite := applyIntegerAffinity (data.quantite.getD (sqliteToPy v.quantite))
                updated_at := now }
          else w), db.nextId⟩) := by
    simp [update_vente, hfind, hval]
  have hres2 : (update_vente db now id (some data)).2.ventes =
      db.ventes.map (fun w =>
        if w.numProduit == id then
          { w with
              design := (data.design.getD (.str v.design)).asStr
              prix := applyRealAffinity (data.prix.getD (sqliteToPy v.prix))
              quantite := applyIntegerAffinity (data.quantite.getD (sqliteToPy v.quantite))
              updated_at := now }
        else w) := by
    rw [hres]
  have hfound : findVente (update_vente db now id (some data)).2 id = some
      { numProduit := v.numProduit
        design := (data.design.getD (.str v.design)).asStr
        prix := applyRealAffinity (data.prix.getD (sqliteToPy v.prix))
        quantite := applyIntegerAffinity (data.quantite.getD (sqliteToPy v.quantite))
        created_at := v.created_at
        updated_at := now } := by
    simp only [findVente, hres2]
    rw [find?_map_update db.ventes id
      (fun w =>
        { w with
            design := (data.design.getD (.str v.design)).asStr
            prix := applyRealAffinity (data.prix.getD (sqliteToPy v.prix))
            quantite := applyIntegerAffinity (data.quantite.getD (sqliteToPy v.quantite))
            updated_at := now })
      (fun w => rfl), hfind']
    simp only [Option.map_some']
    rw [if_pos hpv]
  refine ⟨by rw [hres], by rw [hres], ?_, hfound, ?_⟩
  · intro w hw hne
    rw [hres]
    refine List.mem_map.mpr ⟨w, hw, ?_⟩
    simp [beq_eq_false_iff_ne.mpr hne]
  · intro w hw
    rw [hfound] at hw
    obtain rfl : _ = w := Option.some.inj hw
    refine ⟨?_, ?_, ?_, rfl, rfl, fun h => h⟩
    · intro hd; rw [hd]; rfl
    · intro hp hstable; rw [hp]; exact hstable
    · intro hq hstable; rw [hq]; exact hstable

/-- C6, counterexample to the unconditional "strictly later" part of the
claim: create at clock 5 then update only `quantite` at the same clock 5;
the update succeeds and leaves design and prix unchanged, but the updated
row has `updated_at = created_at = 5`, not `updated_at > created_at`. -/
theorem update_same_second_cex :
    (update_vente
        (create_vente DB.empty 5
          (some ⟨some (.str "A"), some (.float 2), some (.int 3)⟩)).2
        5 1 (some ⟨Option.none, Option.none, some (.int 10)⟩)).1 =
      .msg 200 "Vente mise à jour avec succès!" ∧
    (update_vente
        (create_vente DB.empty 5
          (some ⟨some (.str "A"), some (.float 2), some (.int 3)⟩)).2
        5 1 (some ⟨Option.none, Option.none, some (.int 10)⟩)).2.ventes =
      [{ numProduit := 1, design := "A", prix := .real 2, quantite := .int 10,
         created_at := 5, updated_at := 5 }] := by
  constructor <;> decide

/-- Witness instantiating `update_vente_frame`: updating only `quantite`
of the row ⟨1, "A", 2.0, 3, created 5⟩ at clock 9 keeps design, prix and
created_at, sets quantite to 10 and updated_at to 9 > 5. -/
theorem update_vente_frame_witness :
    findVente (update_vente ⟨[⟨1, "A", .real 2, .int 3, 5, 5⟩], 2⟩ 9 1
        (some ⟨Option.none, Option.none, some (.int 10)⟩)).2 1 =
      some ⟨1, "A", .real 2, .int 10, 5, 9⟩ ∧
    (update_vente ⟨[⟨1, "A", .real 2, .int 3, 5, 5⟩], 2⟩ 9 1
        (some ⟨Option.none, Option.none, some (.int 10)⟩)).1 =
      .msg 200 "Vente mise à jour avec succès!" := by
  have h := update_vente_frame ⟨[⟨1, "A", .real 2, .int 3, 5, 5⟩], 2⟩ 9 1
    ⟨Option.none, Option.none, some (.int 10)⟩ ⟨1, "A", .real 2, .int 3, 5, 5⟩
    (by decide) (by decide)
  exact ⟨h.2.2.2.1, h.1⟩

lemma find?_append_none {α : Type} (p : α → Bool) (l1 l2 : List α)
    (h : l1.find? p = Option.none) : (l1 ++ l2).find? p = l2.find? p := by
  rw [List.find?_append, h, Option.none_or]

/-- C8 (amended): for a valid input supplied in canonical JSON types —
designation a non-empty string of at most 100 characters, price a
positive (float) number, quantity a positive integer — against a database
whose row ids are below the AUTOINCREMENT counter and whose rows carry
other designations, create answers 201 assigning id `db.nextId`, and a
GET of that id returns exactly the submitted designation, price and
quantity plus the assigned id and the two (equal) creation timestamps;
a GET of an id with no matching row answers 404.  When price or quantity
are submitted in coercible but non-canonical forms (e.g. the string
"9.99"), the GET returns the affinity-converted stored value rather than
the submitted representation — see the counterexample. -/
theorem create_then_get_roundtrip (db : DB) (now : Nat) (s : String) (q : ℚ) (n : Int)
    (hids : ∀ w ∈ db.ventes, w.numProduit < db.nextId)
    (hs1 : s.data ≠ []) (hs2 : s.data.length ≤ 100) (hq : 0 < q) (hn : 0 < n)
    (hdup : ∀ w ∈ db.ventes, w.design ≠ s) :
    (create_vente db now (some ⟨some (.str s), some (.float q), some (.int n)⟩)).1 =
      .msg 201 "Vente créée avec succès!" ∧
    get_one_vente (create_vente db now
        (some ⟨some (.str s), some (.float q), some (.int n)⟩)).2 db.nextId =
      .vente 200 ⟨db.nextId, s, .float q, .int n, now, now⟩ ∧
    (∀ db2 : DB, ∀ id : Nat, (∀ w ∈ db2.ventes, w.numProduit ≠ id) →
      get_one_vente db2 id = .msg 404 "Vente non trouvée!") := by
  have h1 : designErrs (.str s) = [] := (designErrs_nil_iff _).mpr ⟨s, rfl, hs1, hs2⟩
  have h2 : prixErrs (.float q) = [] := (prixErrs_nil_iff _).mpr ⟨q, rfl, hq⟩
  have h3 : quantiteErrs (.int n) = [] := (quantiteErrs_nil_iff _).mpr ⟨n, rfl, hn⟩
  have hval : validate_vente (.str s) (.float q) (.int n) = [] := by
    simp [validate_vente, h1, h2, h3]
  have hany : (db.ventes.any fun w => w.design == (PyVal.str s).asStr) = false := by
    rw [List.any_eq_false]
    intro w hw
    simpa [PyVal.asStr] using hdup w hw
  have hcreate : create_vente db now
      (some ⟨some (.str s), some (.float q), some (.int n)⟩) =
      (.msg 201 "Vente créée avec succès!",
        ⟨db.ventes ++ [⟨db.nextId, s, .real q, .int n, now, now⟩], db.nextId + 1⟩) := by
    simp [create_vente, hval, hany, applyRealAffinity, applyIntegerAffinity,
      PyVal.asStr]
    exact fun x hx => hdup x hx
  refine ⟨by rw [hcreate], ?_, ?_⟩
  · rw [hcreate]
    have hleft : db.ventes.find? (fun w => w.numProduit == db.nextId) = Option.none := by
      rw [List.find?_eq_none]
      intro w hw
      simpa using Nat.ne_of_lt (hids w hw)
    have hfound : findVente
        ⟨db.ventes ++ [⟨db.nextId, s, .real q, .int n, now, now⟩], db.nextId + 1⟩
        db.nextId = some ⟨db.nextId, s, .real q, .int n, now, now⟩ := by
      show (db.ventes ++ [(⟨db.nextId, s, .real q, .int n, now, now⟩ : Vente)]).find?
          (fun w => w.numProduit == db.nextId) = _
      rw [find?_append_none _ _ _ hleft]
      simp [List.find?]
    simp [get_one_vente, hfound, venteJson, sqliteToPy]
  · intro db2 id hnone
    have hf : findVente db2 id = Option.none := by
      rw [findVente, List.find?_eq_none]
      intro w hw
      simpa using hnone w hw
    simp [get_one_vente, hf]

/-- Witness instantiating `create_then_get_roundtrip`: creating
("Widget", 9.99, 5) on the empty database then GETting id 1 returns
exactly those values with id 1, and a GET of an absent id answers 404. -/
theorem create_then_get_roundtrip_witness :
    get_one_vente (create_vente DB.empty 0
        (some ⟨some (.str "Widget"), some (.float (mkRat 999 100)), some (.int 5)⟩)).2 1 =
      .vente 200 ⟨1, "Widget", .float (mkRat 999 100), .int 5, 0, 0⟩ ∧
    get_one_vente DB.empty 3 = .msg 404 "Vente non trouvée!" := by
  have h := create_then_get_roundtrip DB.empty 0 "Widget" (mkRat 999 100) 5
    (by simp [DB.empty]) (by decide) (by decide) (by decide) (by decide)
    (by simp [DB.empty])
  exact ⟨h.2.1, h.2.2 DB.empty 3 (by simp [DB.empty])⟩

/-- C8, counterexample to the claim as stated: price submitted as the
coercible string "9.99" passes validation, but the GET after the create
returns the stored REAL value 9.99 (`PyVal.float`), not the submitted
`PyVal.str "9.99"` — the response is not "exactly the submitted price"
for every valid input. -/
theorem create_then_get_string_price_cex :
    (create_vente DB.empty 0
        (some ⟨some (.str "W"), some (.str "9.99"), some (.int 5)⟩)).1 =
      .msg 201 "Vente créée avec succès!" ∧
    get_one_vente (create_vente DB.empty 0
        (some ⟨some (.str "W"), some (.str "9.99"), some (.int 5)⟩)).2 1 =
      .vente 200 ⟨1, "W", .float (mkRat 999 100), .int 5, 0, 0⟩ := by
  constructor <;> decide

/-- C2 (code bug): the request (design "A", prix 1, quantite 5.7) passes
validation — `int(5.7)` truncates to 5 > 0 — and the INSERT binds the raw
value 5.7, which SQLite's INTEGER affinity cannot convert losslessly, so
the persisted `quantite` cell is the REAL 5.7 (`(mkRat 57 10).den = 10`,
i.e. not an integral value): the claimed invariant "quantity is a
positive integer for every persisted item" fails on this run, while the
code's own schema (`quantite INTEGER`) and error message ("La quantité
doit être un entier positif.") state the integer intent. -/
theorem create_accepts_nonintegral_quantite :
    (create_vente DB.empty 7
        (some ⟨some (.str "A"), some (.int 1), some (.float (mkRat 57 10))⟩)).1 =
      .msg 201 "Vente créée avec succès!" ∧
    (create_vente DB.empty 7
        (some ⟨some (.str "A"), some (.int 1), some (.float (mkRat 57 10))⟩)).2.ventes =
      [⟨1, "A", .real 1, .real (mkRat 57 10), 7, 7⟩] ∧
    (mkRat 57 10).den = 10 := by
  refine ⟨by decide, by decide, by decide⟩
